import Mathlib

/-!
Shallow embedding of the GuardianCane smart-cane sketch (src/code.ino).
Floating point readings are modelled as rationals with an explicit NaN
constructor; comparisons against NaN are false, matching IEEE semantics.
Millis timestamps are unsigned 32-bit values modelled as naturals with
explicit wraparound subtraction. The accelerometer magnitude is computed
by the source in 16-bit int on the AVR target, so its abs and additions
are modelled with an explicit twos-complement wrap to that width.
-/

namespace GuardianCane

/-- A sensor reading of C type float: either a valid rational value or NaN. -/
inductive FloatV where
  | nan : FloatV
  | val : ℚ → FloatV
deriving DecidableEq

/-- Model of isnan on a float reading. -/
def FloatV.isnan : FloatV → Bool
  | .nan => true
  | .val _ => false

/-- Comparison reading < bound; false whenever the reading is NaN. -/
def FloatV.ltc : FloatV → ℚ → Bool
  | .nan, _ => false
  | .val v, c => decide (v < c)

/-- Comparison reading > bound; false whenever the reading is NaN. -/
def FloatV.gtc : FloatV → ℚ → Bool
  | .nan, _ => false
  | .val v, c => decide (c < v)

/-- Threshold constant DISTANCE_THRESHOLD (cm). -/
def DISTANCE_THRESHOLD : ℚ := 30

/-- Threshold constant TEMP_MIN (deg C). -/
def TEMP_MIN : ℚ := 0

/-- Threshold constant TEMP_MAX (deg C). -/
def TEMP_MAX : ℚ := 45

/-- Threshold constant LIGHT_THRESHOLD (analog units 0..1023). -/
def LIGHT_THRESHOLD : ℤ := 400

/-- Threshold constant HUMIDITY_MIN. -/
def HUMIDITY_MIN : ℚ := 30

/-- Threshold constant HUMIDITY_MAX. -/
def HUMIDITY_MAX : ℚ := 60

/-- Threshold constant ACCEL_THRESHOLD (raw units). -/
def ACCEL_THRESHOLD : ℤ := 15000

/-- Timing constant CHECK_INTERVAL in ms. -/
def CHECK_INTERVAL : ℕ := 500

/-- Embedding of getDistance, parameterised by the pulseIn result in
microseconds (an unsigned value, 0 on timeout). Returns -1 on timeout,
otherwise duration * 0.034 / 2 centimeters. -/
def getDistance (duration : ℕ) : ℚ :=
  if duration = 0 then -1 else (duration : ℚ) * (34 / 1000) / 2

/-- Twos-complement wrap of an integer into the signed 16-bit range, the
value AVR int arithmetic produces on overflow. -/
def wrap16 (n : ℤ) : ℤ := (n + 32768) % 65536 - 32768

/-- Embedding of the Arduino abs on an int16_t reading, (x)>0?(x):-(x),
evaluated in 16-bit int on the AVR target: negating -32768 overflows and
wraps back to -32768. -/
def absAvr (x : ℤ) : ℤ := if 0 < x then x else wrap16 (-x)

/-- The accumulated accelerometer magnitude, long totalAccel =
abs(ax) + abs(ay) + abs(az): the absolute values and both additions run
in 16-bit int on the AVR target, wrapping on overflow, and only the final
result is widened to long. -/
def totalAccelOf (ax ay az : ℤ) : ℤ :=
  wrap16 (wrap16 (absAvr ax + absAvr ay) + absAvr az)

/-- Embedding of bool distanceAlert = (distance > 0 && distance < DISTANCE_THRESHOLD). -/
def distanceAlert (distance : ℚ) : Bool :=
  decide (0 < distance) && decide (distance < DISTANCE_THRESHOLD)

/-- Embedding of bool humidityAlert = (humidity < HUMIDITY_MIN || humidity > HUMIDITY_MAX). -/
def humidityAlert (humidity : FloatV) : Bool :=
  humidity.ltc HUMIDITY_MIN || humidity.gtc HUMIDITY_MAX

/-- Embedding of bool tempAlert = (!isnan(temperature) && (temperature < TEMP_MIN || temperature > TEMP_MAX)). -/
def tempAlert (temperature : FloatV) : Bool :=
  !temperature.isnan && (temperature.ltc TEMP_MIN || temperature.gtc TEMP_MAX)

/-- Embedding of bool lightAlert = (lightLevel < LIGHT_THRESHOLD). -/
def lightAlert (lightLevel : ℤ) : Bool := decide (lightLevel < LIGHT_THRESHOLD)

/-- Embedding of bool motionAlert = (totalAccel > ACCEL_THRESHOLD). -/
def motionAlert (totalAccel : ℤ) : Bool := decide (ACCEL_THRESHOLD < totalAccel)

/-- Embedding of bool alertTriggered = buttonPressed || distanceAlert ||
tempAlert || lightAlert || humidityAlert || motionAlert. -/
def alertTriggeredOf (bp : Bool) (distance : ℚ) (temperature : FloatV)
    (lightLevel : ℤ) (humidity : FloatV) (totalAccel : ℤ) : Bool :=
  bp || distanceAlert distance || tempAlert temperature || lightAlert lightLevel
     || humidityAlert humidity || motionAlert totalAccel

/-- Hardware indicator state: LED output, remaining commanded tone
duration in ms (0 when silent), and whether the OLED shows a blank frame. -/
structure DeviceState where
  led : Bool
  toneRemaining : ℕ
  blank : Bool
deriving DecidableEq

/-- One hardware action performed by the alert presenter. -/
inductive Act where
  | ledWrite : Bool → Act
  | toneStart : ℕ → ℕ → Act
  | noTone : Act
  | showAlert : Act
  | blankDisplay : Act
  | delayMs : ℕ → Act
deriving DecidableEq

/-- Effect of one action on the indicator state. The tone started by
tone(pin, freq, dur) self-expires as delay time passes. -/
def applyAct (d : DeviceState) : Act → DeviceState
  | .ledWrite b => { d with led := b }
  | .toneStart _ dur => { d with toneRemaining := dur }
  | .noTone => { d with toneRemaining := 0 }
  | .showAlert => { d with blank := false }
  | .blankDisplay => { d with blank := true }
  | .delayMs n => { d with toneRemaining := d.toneRemaining - n }

/-- The presenter action sequence when an alert fires: LED high,
tone(BUZZER_PIN, 1500, 300), draw the alert screen, delay(2000),
noTone, LED low, clear and blank the display. -/
def presentActs : List Act :=
  [Act.ledWrite true, Act.toneStart 1500 300, Act.showAlert,
   Act.delayMs 2000, Act.noTone, Act.ledWrite false, Act.blankDisplay]

/-- State surviving across loop iterations: unsigned long lastCheck and
bool buttonPressed. -/
structure LoopState where
  lastCheck : ℕ
  buttonPressed : Bool
deriving DecidableEq

/-- Per-iteration external inputs: the button line level, the two millis
samples, and the raw sensor readings. -/
structure Inputs where
  buttonLow : Bool
  now1 : ℕ
  now2 : ℕ
  temperature : FloatV
  humidity : FloatV
  duration : ℕ
  lightLevel : ℤ
  ax : ℤ
  ay : ℤ
  az : ℤ
deriving DecidableEq

/-- Unsigned 32-bit wraparound subtraction, as computed for
millis() - lastCheck. -/
def usub32 (a b : ℕ) : ℕ := (a + 2 ^ 32 - b % 2 ^ 32) % 2 ^ 32

/-- Everything one call of loop() produces: the new persistent state, the
indicator state left behind, and the intermediate flags the body computed. -/
structure Iter where
  state : LoopState
  dev : DeviceState
  evaluated : Bool
  sensorsRead : Bool
  manualReason : Bool
  distAlert : Bool
  tmpAlert : Bool
  lgtAlert : Bool
  humAlert : Bool
  motAlert : Bool
  totalAccel : ℤ
  alertTriggered : Bool
  presented : Bool
  dwell : ℕ
deriving DecidableEq

/-- Embedding of one call of loop(): button edge check, early return
unless the 500 ms interval elapsed or the manual flag is pending, sensor
reads, alert evaluation, optional presentation, and the unconditional
reset of buttonPressed. -/
def loopStep (s : LoopState) (dev : DeviceState) (i : Inputs) : Iter :=
  let bp1 := i.buttonLow || s.buttonPressed
  let checkNow := decide (CHECK_INTERVAL < usub32 i.now1 s.lastCheck)
  if !checkNow && !bp1 then
    { state := { s with buttonPressed := bp1 }, dev := dev,
      evaluated := false, sensorsRead := false, manualReason := false,
      distAlert := false, tmpAlert := false, lgtAlert := false,
      humAlert := false, motAlert := false, totalAccel := 0,
      alertTriggered := false, presented := false, dwell := 0 }
  else
    let distance := getDistance i.duration
    let totalAccel := totalAccelOf i.ax i.ay i.az
    let trig := alertTriggeredOf bp1 distance i.temperature i.lightLevel
      i.humidity totalAccel
    let dev2 := if trig then presentActs.foldl applyAct dev else dev
    { state := { lastCheck := i.now2, buttonPressed := false }, dev := dev2,
      evaluated := true, sensorsRead := true, manualReason := bp1,
      distAlert := distanceAlert distance, tmpAlert := tempAlert i.temperature,
      lgtAlert := lightAlert i.lightLevel, humAlert := humidityAlert i.humidity,
      motAlert := motionAlert totalAccel, totalAccel := totalAccel,
      alertTriggered := trig, presented := trig,
      dwell := if trig then 2000 else 0 }

/-- Outcome of setup(): either the program hangs forever in the display
failure branch after printing a diagnostic, or it reaches the ready state
and the loop, with the serial lines it printed. -/
inductive SetupOutcome where
  | halted : List String → SetupOutcome
  | ready : List String → SetupOutcome
deriving DecidableEq

/-- The diagnostic printed when display.begin fails. -/
def ssd1306FailMsg : String := "SSD1306 allocation failed!"

/-- Embedding of setup(), parameterised by whether display.begin and
mpu.testConnection succeed. A failed display init prints the diagnostic
and then loops forever (while(true)), so nothing after it runs. -/
def setup (displayOk mpuOk : Bool) : SetupOutcome :=
  if !displayOk then SetupOutcome.halted [ssd1306FailMsg]
  else
    SetupOutcome.ready
      ((if mpuOk then ["MPU6050 connected successfully!"]
        else ["MPU6050 connection failed!"]) ++
       ["Smart Cane Ready.", "Press button or wait for alert.",
        "----------------------------------"])

/-- True exactly when setup returned and loop iterations can start. -/
def reachesLoop : SetupOutcome → Bool
  | SetupOutcome.halted _ => false
  | SetupOutcome.ready _ => true

theorem presentActs_clears (d : DeviceState) :
    presentActs.foldl applyAct d = ⟨false, 0, true⟩ := rfl

theorem loopStep_manual_of_clear (s : LoopState) (dev : DeviceState) (j : Inputs)
    (hb : s.buttonPressed = false) (hj : j.buttonLow = false) :
    (loopStep s dev j).manualReason = false := by
  simp only [loopStep]
  by_cases hc : (!decide (CHECK_INTERVAL < usub32 j.now1 s.lastCheck) && !(j.buttonLow || s.buttonPressed)) = true
  · rw [if_pos hc]
  · rw [if_neg hc]
    simp [hb, hj]

/-- Claim C1: whenever the loop reaches the evaluation step, the aggregate
alert-triggered flag is true iff at least one of the six reasons (manual,
obstacle, temperature, light, humidity, motion) is true, and presentation
occurs exactly when the aggregate flag is true. -/
theorem c1_aggregate_iff_any_reason (s : LoopState) (dev : DeviceState) (i : Inputs)
    (h : (loopStep s dev i).evaluated = true) :
    ((loopStep s dev i).alertTriggered = true ↔
      ((loopStep s dev i).manualReason = true ∨ (loopStep s dev i).distAlert = true ∨
       (loopStep s dev i).tmpAlert = true ∨ (loopStep s dev i).lgtAlert = true ∨
       (loopStep s dev i).humAlert = true ∨ (loopStep s dev i).motAlert = true)) ∧
    (loopStep s dev i).presented = (loopStep s dev i).alertTriggered := by
  simp only [loopStep] at h ⊢
  by_cases hc : (!decide (CHECK_INTERVAL < usub32 i.now1 s.lastCheck) && !(i.buttonLow || s.buttonPressed)) = true
  · rw [if_pos hc] at h
    simp at h
  · rw [if_neg hc] at h ⊢
    refine ⟨?_, rfl⟩
    simp [alertTriggeredOf, Bool.or_eq_true]
    tauto

theorem c1_aggregate_iff_any_reason_witness :
    (loopStep ⟨0, true⟩ ⟨false, 0, true⟩ ⟨false, 0, 7, FloatV.nan, FloatV.val 45, 0, 500, 0, 0, 0⟩).presented =
      (loopStep ⟨0, true⟩ ⟨false, 0, true⟩ ⟨false, 0, 7, FloatV.nan, FloatV.val 45, 0, 500, 0, 0, 0⟩).alertTriggered :=
  (c1_aggregate_iff_any_reason ⟨0, true⟩ ⟨false, 0, true⟩
    ⟨false, 0, 7, FloatV.nan, FloatV.val 45, 0, 500, 0, 0, 0⟩ (by decide)).2

/-- Claim C2: the obstacle alert is true iff 0 < distance < 30, and any
non-positive reading, the -1 timeout sentinel included, never sets it. -/
theorem c2_obstacle_iff (d : ℚ) :
    (distanceAlert d = true ↔ 0 < d ∧ d < 30) ∧ (d ≤ 0 → distanceAlert d = false) := by
  constructor
  · simp [distanceAlert, DISTANCE_THRESHOLD]
  · intro hd
    simp only [distanceAlert, DISTANCE_THRESHOLD, Bool.and_eq_false_iff]
    left
    simpa using not_lt.mpr hd

theorem c2_obstacle_iff_witness : distanceAlert (-1) = false :=
  (c2_obstacle_iff (-1)).2 (by decide)

/-- Claim C3: a NaN temperature reading yields a false temperature alert
via the explicit isnan guard, and a valid reading t alerts iff
t < 0 or t > 45. -/
theorem c3_temp_nan_guard (t : FloatV) :
    (t.isnan = true → tempAlert t = false) ∧
    (∀ v : ℚ, t = FloatV.val v → (tempAlert t = true ↔ v < 0 ∨ 45 < v)) := by
  cases t with
  | nan => simp [tempAlert, FloatV.isnan]
  | val w =>
      refine ⟨by simp [FloatV.isnan], ?_⟩
      intro v hv
      cases hv
      simp [tempAlert, FloatV.isnan, FloatV.ltc, FloatV.gtc, TEMP_MIN, TEMP_MAX]

theorem c3_temp_nan_guard_witness : tempAlert FloatV.nan = false :=
  (c3_temp_nan_guard FloatV.nan).1 (by decide)

/-- Claim C4 fails on the code: at the in-range readings (20000, 20000, 0)
the Manhattan magnitude is 40000 > 15000, yet the 16-bit additions wrap
totalAccel to -25536 and the motion alert stays false. -/
theorem c4_motion_wrap_bug :
    totalAccelOf 20000 20000 0 = -25536 ∧
    motionAlert (totalAccelOf 20000 20000 0) = false ∧
    15000 < |(20000 : ℤ)| + |20000| + |0| := by decide

/-- Claim C5 fails on the code: at the minimum reading -32768 the Arduino
abs evaluated in 16-bit int returns -32768, so the computed totalAccel is
negative, against the spec of a non-negative accelMagnitude. -/
theorem c5_accel_negative_bug :
    totalAccelOf (-32768) 0 0 = -32768 ∧ totalAccelOf (-32768) 0 0 < 0 := by decide

/-- Claim C6: any iteration that reaches evaluation ends with
buttonPressed reset to false, so a single press never makes the manual
reason fire again in the next evaluation cycle. -/
theorem c6_button_reset (s : LoopState) (dev dev2 : DeviceState) (i j : Inputs)
    (h : (loopStep s dev i).evaluated = true) (hj : j.buttonLow = false) :
    (loopStep s dev i).state.buttonPressed = false ∧
    (loopStep (loopStep s dev i).state dev2 j).manualReason = false := by
  have h1 : (loopStep s dev i).state.buttonPressed = false := by
    simp only [loopStep] at h ⊢
    by_cases hc : (!decide (CHECK_INTERVAL < usub32 i.now1 s.lastCheck) && !(i.buttonLow || s.buttonPressed)) = true
    · rw [if_pos hc] at h
      simp at h
    · rw [if_neg hc]
  exact ⟨h1, loopStep_manual_of_clear _ _ _ h1 hj⟩

theorem c6_button_reset_witness :
    (loopStep ⟨0, true⟩ ⟨false, 0, true⟩ ⟨false, 0, 7, FloatV.nan, FloatV.val 45, 0, 500, 0, 0, 0⟩).state.buttonPressed = false :=
  (c6_button_reset ⟨0, true⟩ ⟨false, 0, true⟩ ⟨false, 0, true⟩
    ⟨false, 0, 7, FloatV.nan, FloatV.val 45, 0, 500, 0, 0, 0⟩
    ⟨false, 0, 7, FloatV.nan, FloatV.val 45, 0, 500, 0, 0, 0⟩ (by decide) (by decide)).1

/-- Claim C7: getDistance returns the -1 sentinel iff pulseIn timed out
with 0; a positive echo duration yields duration * 0.034 / 2 centimeters,
which is positive, so no other non-positive value is ever returned. -/
theorem c7_getDistance (n : ℕ) :
    (getDistance n = -1 ↔ n = 0) ∧
    (n ≠ 0 → getDistance n = (n : ℚ) * (34 / 1000) / 2 ∧ 0 < getDistance n) := by
  by_cases h : n = 0
  · subst h; simp [getDistance]
  · have hn : (0 : ℚ) < (n : ℚ) := by exact_mod_cast Nat.pos_of_ne_zero h
    have hpos : 0 < (n : ℚ) * (34 / 1000) / 2 := by positivity
    refine ⟨⟨fun he => ?_, fun he => absurd he h⟩, fun _ => ⟨by simp [getDistance, h], ?_⟩⟩
    · rw [getDistance, if_neg h] at he
      rw [he] at hpos
      norm_num at hpos
    · rw [getDistance, if_neg h]
      exact hpos

theorem c7_getDistance_witness :
    getDistance 1000 = (1000 : ℚ) * (34 / 1000) / 2 ∧ 0 < getDistance 1000 :=
  (c7_getDistance 1000).2 (by decide)

/-- Claim C8: the sensor-read and evaluation steps run iff more than
500 ms elapsed since lastCheck or the manual flag is pending after the
button-edge check; otherwise the iteration changes nothing. -/
theorem c8_gate (s : LoopState) (dev : DeviceState) (i : Inputs) :
    ((loopStep s dev i).evaluated =
      (decide (CHECK_INTERVAL < usub32 i.now1 s.lastCheck) || s.buttonPressed || i.buttonLow)) ∧
    ((loopStep s dev i).evaluated = false →
      (loopStep s dev i).state = s ∧ (loopStep s dev i).dev = dev ∧
      (loopStep s dev i).sensorsRead = false ∧ (loopStep s dev i).presented = false) := by
  rcases s with ⟨lc, bp⟩
  rcases i with ⟨bl, n1, n2, T, H, du, L, ax, ay, az⟩
  cases hd : decide (CHECK_INTERVAL < usub32 n1 lc) <;> cases bl <;> cases bp <;>
    simp [loopStep, hd]

theorem c8_gate_witness :
    (loopStep ⟨0, false⟩ ⟨false, 0, true⟩ ⟨false, 100, 100, FloatV.nan, FloatV.val 45, 0, 500, 0, 0, 0⟩).state = ⟨0, false⟩ ∧
    (loopStep ⟨0, false⟩ ⟨false, 0, true⟩ ⟨false, 100, 100, FloatV.nan, FloatV.val 45, 0, 500, 0, 0, 0⟩).dev = ⟨false, 0, true⟩ ∧
    (loopStep ⟨0, false⟩ ⟨false, 0, true⟩ ⟨false, 100, 100, FloatV.nan, FloatV.val 45, 0, 500, 0, 0, 0⟩).sensorsRead = false ∧
    (loopStep ⟨0, false⟩ ⟨false, 0, true⟩ ⟨false, 100, 100, FloatV.nan, FloatV.val 45, 0, 500, 0, 0, 0⟩).presented = false :=
  (c8_gate ⟨0, false⟩ ⟨false, 0, true⟩
    ⟨false, 100, 100, FloatV.nan, FloatV.val 45, 0, 500, 0, 0, 0⟩).2 (by decide)

/-- Claim C9: a failed display initialization prints exactly the
diagnostic line and halts permanently, so neither the remaining setup
steps nor any loop iteration is reached. -/
theorem c9_display_fail_halts (mpuOk : Bool) :
    setup false mpuOk = SetupOutcome.halted [ssd1306FailMsg] ∧
    reachesLoop (setup false mpuOk) = false := by
  cases mpuOk <;> simp [setup, reachesLoop]

/-- Claim C10: every iteration that presented an alert ends, after the
2000 ms dwell, with the tone off, the LED low and the display blanked. -/
theorem c10_indicators_cleared (s : LoopState) (dev : DeviceState) (i : Inputs)
    (h : (loopStep s dev i).presented = true) :
    (loopStep s dev i).dev = ⟨false, 0, true⟩ ∧ (loopStep s dev i).dwell = 2000 := by
  simp only [loopStep] at h ⊢
  by_cases hc : (!decide (CHECK_INTERVAL < usub32 i.now1 s.lastCheck) && !(i.buttonLow || s.buttonPressed)) = true
  · rw [if_pos hc] at h
    simp at h
  · rw [if_neg hc] at h ⊢
    have h2 : alertTriggeredOf (i.buttonLow || s.buttonPressed) (getDistance i.duration)
        i.temperature i.lightLevel i.humidity (totalAccelOf i.ax i.ay i.az) = true := h
    simp [h2, presentActs_clears]

theorem c10_indicators_cleared_witness :
    (loopStep ⟨0, true⟩ ⟨true, 300, false⟩ ⟨false, 0, 7, FloatV.nan, FloatV.val 45, 0, 500, 0, 0, 0⟩).dev = ⟨false, 0, true⟩ ∧
    (loopStep ⟨0, true⟩ ⟨true, 300, false⟩ ⟨false, 0, 7, FloatV.nan, FloatV.val 45, 0, 500, 0, 0, 0⟩).dwell = 2000 :=
  c10_indicators_cleared ⟨0, true⟩ ⟨true, 300, false⟩
    ⟨false, 0, 7, FloatV.nan, FloatV.val 45, 0, 500, 0, 0, 0⟩ (by decide)

end GuardianCane
